import Mathlib

/-!
Verification of the Setup Flow Controller of the DevFinder onboarding screen
(source: src/components/BigButton.tsx, `Setup` component).

The controller owns the screen state (username text, marker coordinate, map
lock, busy flag, error message, session store value) and runs a sequential
asynchronous registration pipeline `handleSignUp`:

  setIsAuthenticating(true);
  getGitHubUserInfo(username)
    .catch(err => 404 ? reject(notFoundMsg) : reject(err))
    .then(fromGitHub => postUser(fields + markerLocation))
    .then(() => setValue(username); setMapLocked(false); navigation.replace(Main))
    .catch(err => setErrorMessage(typeof err === string ? err : genericMsg))
    .finally(() => setIsAuthenticating(false));

We embed the chain shallowly: a settled promise is an `Except` of a JavaScript
error value, handlers additionally emit a trace of state-mutation and
navigation events, and `.then` / `.catch` / `.finally` become the combinators
`PState.pthen` / `PState.pcatch` / `PState.pfinally`. The final state is the
initial state with the event trace folded over it. Coordinates are only ever
stored and forwarded, never computed with, so their numeric carrier is taken
to be `Int`; the authentication context (Session Store) is modelled as
present, matching the external capability the screen is wired to.
-/

/-- A (latitude, longitude) pair. The controller never performs arithmetic on
coordinates; they are opaque values stored and passed along. -/
structure Coordinate where
  latitude : Int
  longitude : Int
deriving DecidableEq

/-- A GitHub profile as consumed by the pipeline (`fromGitHub` in the source):
the fields read at lines 117–121. -/
structure Profile where
  login : String
  avatar_url : String
  bio : Option String
  company : Option String
  name : Option String
deriving DecidableEq

/-- The body posted to the backend by `postUser` (lines 116–123). -/
structure RegistrationPayload where
  login : String
  avatar_url : String
  bio : Option String
  company : Option String
  name : Option String
  coordinates : Coordinate
deriving DecidableEq

/-- A JavaScript value carried by a rejected promise, as far as the code
inspects it: `axios.isAxiosError(err) && err.response?.status == 404`
(line 109) and `typeof err === 'string'` (line 131). `axiosErr` carries the
optional HTTP response status; `other` stands for every remaining value. -/
inductive ErrVal where
  | str : String → ErrVal
  | axiosErr : Option Nat → ErrVal
  | other : ErrVal
deriving DecidableEq

/-- The mutable state owned by the `Setup` screen (lines 65–76), plus the
Session Store value committed through the authentication context. -/
structure SetupState where
  username : String
  markerLocation : Coordinate
  mapLocked : Bool
  isAuthenticating : Bool
  errorMessage : Option String
  session : Option String
deriving DecidableEq

/-- A state-mutation or navigation effect emitted by a handler. -/
inductive Event where
  | setBusy : Bool → Event
  | setErrorMessage : Option String → Event
  | setMapLocked : Bool → Event
  | commitSession : String → Event
  | navReplace : String → Event
  | setUsername : String → Event
  | setMarker : Coordinate → Event
deriving DecidableEq

/-- Apply one effect to the state. `navReplace` changes no screen state. -/
def applyEvent (s : SetupState) : Event → SetupState
  | Event.setBusy b => { s with isAuthenticating := b }
  | Event.setErrorMessage m => { s with errorMessage := m }
  | Event.setMapLocked b => { s with mapLocked := b }
  | Event.commitSession u => { s with session := some u }
  | Event.navReplace _ => s
  | Event.setUsername u => { s with username := u }
  | Event.setMarker c => { s with markerLocation := c }

/-- Fold a trace of effects over a state, in order. -/
def applyEvents (s : SetupState) (es : List Event) : SetupState :=
  es.foldl applyEvent s

/-- Count the events satisfying a predicate. -/
def countEvents (f : Event → Bool) : List Event → Nat
  | [] => 0
  | e :: es => (if f e then 1 else 0) + countEvents f es

/-- The environment of remote capabilities: `getGitHubUserInfo` and
`postUser`. Each settles with a value or with a JavaScript error value. -/
structure Env where
  lookup : String → Except ErrVal Profile
  register : RegistrationPayload → Except ErrVal Unit

/-- A settled promise together with the effects its handlers emitted. -/
structure PState (α : Type) where
  result : Except ErrVal α
  events : List Event

/-- `p.then(f)` with no rejection handler: a rejection passes through, a
fulfillment runs `f`. -/
def PState.pthen {α β : Type} (p : PState α) (f : α → PState β) : PState β :=
  match p.result with
  | Except.ok a => let q := f a; ⟨q.result, p.events ++ q.events⟩
  | Except.error e => ⟨Except.error e, p.events⟩

/-- `p.catch(f)`: a fulfillment passes through, a rejection runs `f` (which
may itself return a rejected promise, as the 404 handler does). -/
def PState.pcatch {α : Type} (p : PState α) (f : ErrVal → PState α) : PState α :=
  match p.result with
  | Except.ok a => ⟨Except.ok a, p.events⟩
  | Except.error e => let q := f e; ⟨q.result, p.events ++ q.events⟩

/-- `p.finally(cb)` where the callback only mutates state and cannot throw:
the events run, the settled result is kept. -/
def PState.pfinally {α : Type} (p : PState α) (es : List Event) : PState α :=
  ⟨p.result, p.events ++ es⟩

/-- The fixed not-found message (line 110). -/
def notFoundMsg : String := "There is no such username on GitHub. Please try again."

/-- The generic fallback message (line 134). -/
def genericMsg : String := "Something went wrong. Please try again."

/-- `axios.isAxiosError(err) && err.response?.status == 404` (line 109). -/
def is404 : ErrVal → Bool
  | ErrVal.axiosErr (some 404) => true
  | _ => false

/-- `typeof err === 'string'` (line 131). -/
def isStringErr : ErrVal → Bool
  | ErrVal.str _ => true
  | _ => false

/-- The first `.catch` handler (lines 108–114): a 404 is replaced by the fixed
string, every other error value is re-rejected unchanged. -/
def classify404 (e : ErrVal) : ErrVal :=
  if is404 e then ErrVal.str notFoundMsg else e

/-- The final `.catch` handler's message choice (lines 130–136): a string
error is shown verbatim, anything else becomes the generic fallback. -/
def errText : ErrVal → String
  | ErrVal.str m => m
  | _ => genericMsg

/-- The object literal passed to `postUser` (lines 116–123). -/
def payloadOf (fromGitHub : Profile) (s : SetupState) : RegistrationPayload :=
  { login := fromGitHub.login
    avatar_url := fromGitHub.avatar_url
    bio := fromGitHub.bio
    company := fromGitHub.company
    name := fromGitHub.name
    coordinates := s.markerLocation }

/-- `getGitHubUserInfo(username).catch(...)` (lines 107–114). -/
def lookupStep (env : Env) (s : SetupState) : PState Profile :=
  PState.pcatch ⟨env.lookup s.username, []⟩
    (fun err => ⟨Except.error (classify404 err), []⟩)

/-- `.then(fromGitHub => postUser({...}))` (lines 115–124). -/
def registerStep (env : Env) (s : SetupState) : PState Unit :=
  PState.pthen (lookupStep env s)
    (fun fromGitHub => ⟨env.register (payloadOf fromGitHub s), []⟩)

/-- The success handler (lines 125–129): commit the session, unlock the map,
replace the navigation stack top with the Main screen. -/
def successStep (env : Env) (s : SetupState) : PState Unit :=
  PState.pthen (registerStep env s)
    (fun _ => ⟨Except.ok (), [Event.commitSession s.username,
                              Event.setMapLocked false,
                              Event.navReplace "Main"]⟩)

/-- The final `.catch` (lines 130–136): absorb the rejection into
`errorMessage`. -/
def catchStep (env : Env) (s : SetupState) : PState Unit :=
  PState.pcatch (successStep env s)
    (fun err => ⟨Except.ok (), [Event.setErrorMessage (some (errText err))]⟩)

/-- The whole settled chain including `.finally(() => setIsAuthenticating(false))`
(line 138). -/
def handleSignUpP (env : Env) (s : SetupState) : PState Unit :=
  PState.pfinally (catchStep env s) [Event.setBusy false]

/-- The full effect trace of one `handleSignUp()` invocation: the synchronous
`setIsAuthenticating(true)` (line 106) followed by the chain's effects. -/
def handleSignUpEvents (env : Env) (s : SetupState) : List Event :=
  Event.setBusy true :: (handleSignUpP env s).events

/-- The state after one `handleSignUp()` invocation has fully settled. -/
def handleSignUpRun (env : Env) (s : SetupState) : SetupState :=
  applyEvents s (handleSignUpEvents env s)

/-- The `onChangeText` handler of the username input (lines 171–174):
`setUsername(text); setErrorMessage(null)`. -/
def handleUsernameChange (text : String) : List Event :=
  [Event.setUsername text, Event.setErrorMessage none]

/-- The state after editing the username field. -/
def handleUsernameChangeRun (s : SetupState) (text : String) : SetupState :=
  applyEvents s (handleUsernameChange text)

/-- `handleMapPress` (lines 93–95), wired to both `onPress` and `onPoiClick`:
`setMarkerLocation(event.nativeEvent.coordinate)`. -/
def handleMapPress (coordinate : Coordinate) : List Event :=
  [Event.setMarker coordinate]

/-- The state after a map press or point-of-interest tap. -/
def handleMapPressRun (s : SetupState) (coordinate : Coordinate) : SetupState :=
  applyEvents s (handleMapPress coordinate)

/-- Does an event set a (non-null) error message? -/
def isSetErrorEvent : Event → Bool
  | Event.setErrorMessage (some _) => true
  | _ => false

/-- Does an event clear the error message (set it to null)? -/
def isClearErrorEvent : Event → Bool
  | Event.setErrorMessage none => true
  | _ => false

/-- Is an event a navigation replacement? -/
def isNavEvent : Event → Bool
  | Event.navReplace _ => true
  | _ => false

/-- Is an event a Session Store commit? -/
def isCommitEvent : Event → Bool
  | Event.commitSession _ => true
  | _ => false

/-- Is an event `setIsAuthenticating(false)`? -/
def isSetBusyFalseEvent : Event → Bool
  | Event.setBusy false => true
  | _ => false

/-- Is an event a busy-flag write at all? -/
def isSetBusyEvent : Event → Bool
  | Event.setBusy _ => true
  | _ => false

/- Concrete fixtures used by witnesses and counterexamples. -/

/-- A concrete profile, as in the spec's "octocat" scenario. -/
def octoProfile : Profile :=
  { login := "octocat", avatar_url := "https://avatars.example/octocat",
    bio := none, company := none, name := some "The Octocat" }

/-- An environment in which both remote calls succeed. -/
def envOk : Env :=
  { lookup := fun _ => Except.ok octoProfile
    register := fun _ => Except.ok () }

/-- An environment in which the lookup rejects with an axios 404. -/
def envNotFound : Env :=
  { lookup := fun _ => Except.error (ErrVal.axiosErr (some 404))
    register := fun _ => Except.ok () }

/-- An environment in which the lookup rejects with a plain string value that
is not an axios error. -/
def envStrFail : Env :=
  { lookup := fun _ => Except.error (ErrVal.str "oops")
    register := fun _ => Except.ok () }

/-- An environment in which the lookup succeeds but registration rejects with
a non-string error value (e.g. a network error object). -/
def envNetFail : Env :=
  { lookup := fun _ => Except.ok octoProfile
    register := fun _ => Except.error (ErrVal.axiosErr none) }

/-- The initial screen state with the "octocat" username entered. -/
def s0 : SetupState :=
  { username := "octocat", markerLocation := ⟨0, 0⟩, mapLocked := true,
    isAuthenticating := false, errorMessage := none, session := none }

/-- The same state after a previous failed run left an error banner up. -/
def sErr : SetupState :=
  { s0 with errorMessage := some "previous error" }

/- Shape lemmas: the three possible effect traces of one invocation. -/

/-- If the GitHub lookup succeeds and `postUser` succeeds, the trace is busy-on,
session commit, map unlock, navigation, busy-off. -/
theorem events_of_success (env : Env) (s : SetupState) (p : Profile)
    (hl : env.lookup s.username = Except.ok p)
    (hr : env.register (payloadOf p s) = Except.ok ()) :
    handleSignUpEvents env s =
      [Event.setBusy true, Event.commitSession s.username,
       Event.setMapLocked false, Event.navReplace "Main", Event.setBusy false] := by
  simp [handleSignUpEvents, handleSignUpP, PState.pfinally, catchStep, PState.pcatch,
        successStep, registerStep, PState.pthen, lookupStep, hl, hr]

/-- If the GitHub lookup rejects, the trace is busy-on, one error-message
write (through the 404 reclassification), busy-off. -/
theorem events_of_lookup_error (env : Env) (s : SetupState) (e : ErrVal)
    (hl : env.lookup s.username = Except.error e) :
    handleSignUpEvents env s =
      [Event.setBusy true,
       Event.setErrorMessage (some (errText (classify404 e))),
       Event.setBusy false] := by
  simp [handleSignUpEvents, handleSignUpP, PState.pfinally, catchStep, PState.pcatch,
        successStep, registerStep, PState.pthen, lookupStep, hl]

/-- If the lookup succeeds but `postUser` rejects, the trace is busy-on, one
error-message write (no 404 reclassification on this leg), busy-off. -/
theorem events_of_register_error (env : Env) (s : SetupState) (p : Profile) (e : ErrVal)
    (hl : env.lookup s.username = Except.ok p)
    (hr : env.register (payloadOf p s) = Except.error e) :
    handleSignUpEvents env s =
      [Event.setBusy true,
       Event.setErrorMessage (some (errText e)),
       Event.setBusy false] := by
  simp [handleSignUpEvents, handleSignUpP, PState.pfinally, catchStep, PState.pcatch,
        successStep, registerStep, PState.pthen, lookupStep, hl, hr]

/- Claim theorems. -/

/-- C1: whenever the profile lookup succeeds and the registration call
succeeds (and no stale error banner was up), the run leaves errorMessage
unset, unlocks the map, commits the submitted username to the Session Store,
and triggers exactly one navigation replacement, to "Main". -/
theorem submitRegistration_success_outcome (env : Env) (s : SetupState) (p : Profile)
    (hl : env.lookup s.username = Except.ok p)
    (hr : env.register (payloadOf p s) = Except.ok ())
    (he : s.errorMessage = none) :
    (handleSignUpRun env s).errorMessage = none
    ∧ (handleSignUpRun env s).mapLocked = false
    ∧ (handleSignUpRun env s).session = some s.username
    ∧ countEvents isNavEvent (handleSignUpEvents env s) = 1
    ∧ Event.navReplace "Main" ∈ handleSignUpEvents env s := by
  have hev := events_of_success env s p hl hr
  simp only [handleSignUpRun, hev]
  refine ⟨?_, rfl, rfl, rfl, ?_⟩
  · simpa [applyEvents, applyEvent] using he
  · simp

/-- Witness for C1 at the concrete octocat scenario. -/
theorem submitRegistration_success_outcome_witness :
    (handleSignUpRun envOk s0).errorMessage = none
    ∧ (handleSignUpRun envOk s0).mapLocked = false
    ∧ (handleSignUpRun envOk s0).session = some "octocat"
    ∧ countEvents isNavEvent (handleSignUpEvents envOk s0) = 1
    ∧ Event.navReplace "Main" ∈ handleSignUpEvents envOk s0 :=
  submitRegistration_success_outcome envOk s0 octoProfile rfl rfl rfl

/-- C2: whenever the lookup rejects with an axios 404, the run ends with the
fixed not-found message, the busy flag off, and no navigation. -/
theorem submitRegistration_notFound_outcome (env : Env) (s : SetupState) (e : ErrVal)
    (hl : env.lookup s.username = Except.error e)
    (h4 : is404 e = true) :
    (handleSignUpRun env s).errorMessage = some notFoundMsg
    ∧ (handleSignUpRun env s).isAuthenticating = false
    ∧ countEvents isNavEvent (handleSignUpEvents env s) = 0 := by
  have hev := events_of_lookup_error env s e hl
  simp only [handleSignUpRun, hev]
  refine ⟨?_, rfl, rfl⟩
  simp [applyEvents, applyEvent, classify404, h4, errText]

/-- Witness for C2 at a concrete 404 rejection. -/
theorem submitRegistration_notFound_outcome_witness :
    (handleSignUpRun envNotFound s0).errorMessage = some notFoundMsg
    ∧ (handleSignUpRun envNotFound s0).isAuthenticating = false
    ∧ countEvents isNavEvent (handleSignUpEvents envNotFound s0) = 0 :=
  submitRegistration_notFound_outcome envNotFound s0 (ErrVal.axiosErr (some 404)) rfl rfl

/-- C3 counterexample: a lookup rejection carrying the plain string "oops" is
not the not-found case (`is404` is false on it), yet the run ends with
errorMessage "oops", not the generic fallback: the final catch shows any
string error verbatim (`typeof err === 'string'`). -/
theorem submitRegistration_generic_counterexample :
    is404 (ErrVal.str "oops") = false
    ∧ envStrFail.lookup s0.username = Except.error (ErrVal.str "oops")
    ∧ (handleSignUpRun envStrFail s0).errorMessage = some "oops"
    ∧ (some "oops" : Option String) ≠ some genericMsg :=
  ⟨rfl, rfl, rfl, by decide⟩

/-- C3 (amended): for every lookup or registration failure other than the
not-found case whose raw error value is not a string, the run ends with the
generic fallback message, the busy flag off, no navigation, and no Session
Store commit. (A failure whose raw error value is a string sets errorMessage
to that string instead.) -/
theorem submitRegistration_nonstring_failure_generic (env : Env) (s : SetupState) (e : ErrVal)
    (hstr : isStringErr e = false)
    (hfail : (env.lookup s.username = Except.error e ∧ is404 e = false)
      ∨ ∃ p, env.lookup s.username = Except.ok p
          ∧ env.register (payloadOf p s) = Except.error e) :
    (handleSignUpRun env s).errorMessage = some genericMsg
    ∧ (handleSignUpRun env s).isAuthenticating = false
    ∧ countEvents isNavEvent (handleSignUpEvents env s) = 0
    ∧ (handleSignUpRun env s).session = s.session
    ∧ countEvents isCommitEvent (handleSignUpEvents env s) = 0 := by
  have htext : errText e = genericMsg := by
    cases e with
    | str m => simp [isStringErr] at hstr
    | axiosErr st => rfl
    | other => rfl
  rcases hfail with ⟨hl, h4⟩ | ⟨p, hl, hr⟩
  · have hev := events_of_lookup_error env s e hl
    simp only [handleSignUpRun, hev]
    refine ⟨?_, rfl, rfl, rfl, rfl⟩
    simp [applyEvents, applyEvent, classify404, h4, htext]
  · have hev := events_of_register_error env s p e hl hr
    simp only [handleSignUpRun, hev]
    refine ⟨?_, rfl, rfl, rfl, rfl⟩
    simp [applyEvents, applyEvent, htext]

/-- Witness for amended C3 at a concrete registration network failure. -/
theorem submitRegistration_nonstring_failure_generic_witness :
    (handleSignUpRun envNetFail s0).errorMessage = some genericMsg
    ∧ (handleSignUpRun envNetFail s0).isAuthenticating = false
    ∧ countEvents isNavEvent (handleSignUpEvents envNetFail s0) = 0
    ∧ (handleSignUpRun envNetFail s0).session = none
    ∧ countEvents isCommitEvent (handleSignUpEvents envNetFail s0) = 0 :=
  submitRegistration_nonstring_failure_generic envNetFail s0 (ErrVal.axiosErr none)
    rfl (Or.inr ⟨octoProfile, rfl, rfl⟩)

/-- C4: every invocation turns the busy flag on as its first effect, performs
exactly one busy-off write (which is its last effect), keeps the flag on at
every intermediate point of the run, and ends with the flag off — on the
success path and on every failure path. -/
theorem submitRegistration_busy_lifecycle (env : Env) (s : SetupState) :
    (handleSignUpEvents env s).head? = some (Event.setBusy true)
    ∧ (handleSignUpEvents env s).getLast? = some (Event.setBusy false)
    ∧ countEvents isSetBusyEvent (handleSignUpEvents env s) = 2
    ∧ countEvents isSetBusyFalseEvent (handleSignUpEvents env s) = 1
    ∧ (∀ k, 0 < k → k < (handleSignUpEvents env s).length →
        (applyEvents s ((handleSignUpEvents env s).take k)).isAuthenticating = true)
    ∧ (handleSignUpRun env s).isAuthenticating = false := by
  rcases hl : env.lookup s.username with e | p
  · have hev := events_of_lookup_error env s e hl
    simp only [handleSignUpRun, hev]
    refine ⟨rfl, rfl, rfl, rfl, ?_, rfl⟩
    intro k hk0 hklen
    have hk3 : k < 3 := by simpa using hklen
    interval_cases k <;> rfl
  · rcases hr : env.register (payloadOf p s) with e | u
    · have hev := events_of_register_error env s p e hl hr
      simp only [handleSignUpRun, hev]
      refine ⟨rfl, rfl, rfl, rfl, ?_, rfl⟩
      intro k hk0 hklen
      have hk3 : k < 3 := by simpa using hklen
      interval_cases k <;> rfl
    · cases u
      have hev := events_of_success env s p hl hr
      simp only [handleSignUpRun, hev]
      refine ⟨rfl, rfl, rfl, rfl, ?_, rfl⟩
      intro k hk0 hklen
      have hk5 : k < 5 := by simpa using hklen
      interval_cases k <;> rfl

/-- Witness for C4: the intermediate-state clause at a concrete run, step 1. -/
theorem submitRegistration_busy_lifecycle_witness :
    (applyEvents s0 ((handleSignUpEvents envOk s0).take 1)).isAuthenticating = true
    ∧ (handleSignUpRun envOk s0).isAuthenticating = false :=
  ⟨(submitRegistration_busy_lifecycle envOk s0).2.2.2.2.1 1 (by decide) (by decide),
   (submitRegistration_busy_lifecycle envOk s0).2.2.2.2.2⟩

/-- C5: in any single invocation, writing an error message and navigating are
mutually exclusive — no trace contains both. -/
theorem submitRegistration_error_nav_exclusive (env : Env) (s : SetupState) :
    ((handleSignUpEvents env s).any isSetErrorEvent
      && (handleSignUpEvents env s).any isNavEvent) = false := by
  rcases hl : env.lookup s.username with e | p
  · simp [events_of_lookup_error env s e hl, isSetErrorEvent, isNavEvent]
  · rcases hr : env.register (payloadOf p s) with e | u
    · simp [events_of_register_error env s p e hl hr, isSetErrorEvent, isNavEvent]
    · cases u
      simp [events_of_success env s p hl hr, isSetErrorEvent, isNavEvent]

/-- C6 counterexample: `handleSignUp` never writes `setErrorMessage(null)`.
With a stale error banner up, a run that succeeds end-to-end leaves the old
message in place and its trace contains no clearing write, so starting a run
does not clear errorMessage. -/
theorem pipeline_start_clears_error_counterexample :
    sErr.errorMessage = some "previous error"
    ∧ (handleSignUpRun envOk sErr).errorMessage = some "previous error"
    ∧ countEvents isClearErrorEvent (handleSignUpEvents envOk sErr) = 0 :=
  ⟨rfl, rfl, rfl⟩

/-- C6 (amended): starting a pipeline run leaves errorMessage unchanged — no
run ever emits a clearing write (only editing the username clears it) — and a
run writes errorMessage exactly when the lookup+registration pair fails, to
the message classified from the error. -/
theorem submitRegistration_errorMessage_frame (env : Env) (s : SetupState) :
    countEvents isClearErrorEvent (handleSignUpEvents env s) = 0
    ∧ ((registerStep env s).result = Except.ok () →
        (handleSignUpRun env s).errorMessage = s.errorMessage)
    ∧ (∀ e, (registerStep env s).result = Except.error e →
        (handleSignUpRun env s).errorMessage = some (errText e)) := by
  rcases hl : env.lookup s.username with e | p
  · have hev := events_of_lookup_error env s e hl
    refine ⟨by simp only [hev]; rfl, ?_, ?_⟩
    · intro h
      simp [registerStep, PState.pthen, lookupStep, PState.pcatch, hl] at h
    · intro e' he'
      simp [registerStep, PState.pthen, lookupStep, PState.pcatch, hl] at he'
      simp only [handleSignUpRun, hev]
      simp [applyEvents, applyEvent, he']
  · rcases hr : env.register (payloadOf p s) with e | u
    · have hev := events_of_register_error env s p e hl hr
      refine ⟨by simp only [hev]; rfl, ?_, ?_⟩
      · intro h
        simp [registerStep, PState.pthen, lookupStep, PState.pcatch, hl, hr] at h
      · intro e' he'
        simp [registerStep, PState.pthen, lookupStep, PState.pcatch, hl, hr] at he'
        simp only [handleSignUpRun, hev]
        simp [applyEvents, applyEvent, he']
    · cases u
      have hev := events_of_success env s p hl hr
      refine ⟨by simp only [hev]; rfl, ?_, ?_⟩
      · intro _
        simp only [handleSignUpRun, hev]
        rfl
      · intro e' he'
        simp [registerStep, PState.pthen, lookupStep, PState.pcatch, hl, hr] at he'

/-- Witness for amended C6: a successful run over a stale error keeps it. -/
theorem submitRegistration_errorMessage_frame_witness :
    (handleSignUpRun envOk sErr).errorMessage = some "previous error" :=
  (submitRegistration_errorMessage_frame envOk sErr).2.1 rfl

/-- C7: editing the username overwrites the username text and unconditionally
clears errorMessage, whatever the prior state was; no other state changes. -/
theorem handleUsernameChange_overwrites_and_clears (s : SetupState) (text : String) :
    (handleUsernameChangeRun s text).username = text
    ∧ (handleUsernameChangeRun s text).errorMessage = none
    ∧ (handleUsernameChangeRun s text).markerLocation = s.markerLocation
    ∧ (handleUsernameChangeRun s text).mapLocked = s.mapLocked
    ∧ (handleUsernameChangeRun s text).isAuthenticating = s.isAuthenticating
    ∧ (handleUsernameChangeRun s text).session = s.session :=
  ⟨rfl, rfl, rfl, rfl, rfl, rfl⟩

/-- C8: a map press or point-of-interest tap at coordinate C unconditionally
overwrites markerLocation with C, regardless of prior state, with no
validation and no other state change. -/
theorem handleMapPress_sets_marker (s : SetupState) (c : Coordinate) :
    (handleMapPressRun s c).markerLocation = c
    ∧ (handleMapPressRun s c).username = s.username
    ∧ (handleMapPressRun s c).mapLocked = s.mapLocked
    ∧ (handleMapPressRun s c).isAuthenticating = s.isAuthenticating
    ∧ (handleMapPressRun s c).errorMessage = s.errorMessage
    ∧ (handleMapPressRun s c).session = s.session :=
  ⟨rfl, rfl, rfl, rfl, rfl, rfl⟩

/-- C9: the chain ends in a catch-all rejection handler followed by a
non-throwing finally, so for every outcome of the two remote calls the
invocation settles fulfilled — no rejection propagates to the caller. -/
theorem submitRegistration_always_resolves (env : Env) (s : SetupState) :
    (handleSignUpP env s).result = Except.ok () := by
  rcases h : (successStep env s).result with e | u
  · simp [handleSignUpP, PState.pfinally, catchStep, PState.pcatch, h]
  · cases u
    simp [handleSignUpP, PState.pfinally, catchStep, PState.pcatch, h]

/-- C10: the success path never touches errorMessage: re-submitting after a
failed run, without editing the username, navigates away with the stale error
message still set. -/
theorem submitRegistration_success_keeps_stale_error (env : Env) (s : SetupState) (m : String)
    (he : s.errorMessage = some m)
    (hr : (registerStep env s).result = Except.ok ()) :
    (handleSignUpRun env s).errorMessage = some m
    ∧ countEvents isNavEvent (handleSignUpEvents env s) = 1 := by
  rcases hl : env.lookup s.username with e | p
  · exfalso
    simp [registerStep, PState.pthen, lookupStep, PState.pcatch, hl] at hr
  · rcases hrr : env.register (payloadOf p s) with e | u
    · exfalso
      simp [registerStep, PState.pthen, lookupStep, PState.pcatch, hl, hrr] at hr
    · cases u
      have hev := events_of_success env s p hl hrr
      simp only [handleSignUpRun, hev]
      exact ⟨by simpa [applyEvents, applyEvent] using he, rfl⟩

/-- Witness for C10: concrete successful re-submission over a stale error. -/
theorem submitRegistration_success_keeps_stale_error_witness :
    (handleSignUpRun envOk sErr).errorMessage = some "previous error"
    ∧ countEvents isNavEvent (handleSignUpEvents envOk sErr) = 1 :=
  submitRegistration_success_keeps_stale_error envOk sErr "previous error" rfl rfl
